import Mathlib

/-!
Shallow embedding of `mysql_wrapper/mysql_wrapper.py` (the richer variant under
`build/lib/`, which the design notes designate as canonical): a connection
lifecycle manager with idle-timeout eviction, lazy reconnection, and CRUD
helpers funnelled through a single `_execute_query` choke point.

The SQL driver (`mysql.connector`) is an external collaborator.  It is modelled
by a `Driver` oracle scripting the outcome of each successive driver `connect`
attempt and each successive `cursor.execute` call, together with the cursor
data (`fetchall` rows, `rowcount`, `lastrowid`) each successful execute yields.
Every call the wrapper makes into the driver is recorded as a `DriverEvent`, so
properties such as "exactly one reconnect" or "zero driver calls" are counting
statements about the emitted event trace.

Time (`time.time()`) is passed explicitly: each operation receives the instant
`now` at which it runs.  Timestamps and the idle timeout are integers (seconds).
-/

namespace MySQLWrapper

/-- Instants and durations in seconds, as in `time.time()` arithmetic. -/
abbrev Time := Int

/-- A SQL parameter value bound to a `%s` placeholder. -/
inductive Value where
  | str (s : String)
  | int (n : Int)
deriving DecidableEq, Repr

/-- The `params` argument of `cursor.execute`: Python passes `None`, a tuple
of values, or (in `insert_many`) a list of tuples. -/
inductive Params where
  | noParams
  | tuple (vs : List Value)
  | seqOfTuples (vss : List (List Value))
deriving DecidableEq, Repr

/-- One row of a result set, as returned by `fetchall`. -/
abbrev Row := List Value

/-- The observable data of a driver cursor after a successful `execute`. -/
structure Cursor where
  rowcount : Int
  lastrowid : Option Nat
  rows : List Row
deriving DecidableEq, Repr

/-- The driver collaborator, scripted: `connectOk n` is whether the `n`-th
driver `connect` attempt succeeds, `execOk n` whether the `n`-th
`cursor.execute` succeeds, `cursorOf n` the cursor the `n`-th execute yields
when it succeeds, and the two message fields the driver error messages. -/
structure Driver where
  connectOk : Nat → Bool
  execOk : Nat → Bool
  cursorOf : Nat → Cursor
  connectErrMsg : Nat → String
  execErrMsg : Nat → String

/-- A driver connection handle: `id` records which connect attempt created it,
`closed` whether `handle.close()` has been called.  The driver reports the
handle live (`is_connected()`) iff it has not been closed. -/
structure Handle where
  id : Nat
  closed : Bool
deriving DecidableEq, Repr

/-- One call the wrapper makes into the driver, in order of occurrence. -/
inductive DriverEvent where
  | connectCall (host user password database : String) (ok : Bool)
  | executeCall (query : String) (ps : Params) (ok : Bool)
  | commitCall
  | rollbackCall
  | closeCall
deriving DecidableEq, Repr

/-- The error taxonomy: `connectionError` is the driver `Error` re-raised from
`connect`, `queryError` the driver `Error` re-raised from `cursor.execute`
(after rollback), `valueError` the `ValueError` raised by `insert_many` on an
empty batch. -/
inductive WrapperError where
  | connectionError (msg : String)
  | queryError (msg : String)
  | valueError (msg : String)
deriving DecidableEq, Repr

/-- The mutable state of a `MySQLWrapper` instance: the stored credentials,
`self.connection` (absent, or a handle that may have been closed),
`self.last_active_time`, `self.idle_timeout`, plus the counters indexing the
driver oracle (how many driver `connect` attempts and `cursor.execute` calls
have happened so far). -/
structure St where
  host : String
  user : String
  password : String
  database : String
  connection : Option Handle
  last_active_time : Time
  idle_timeout : Int
  connectCount : Nat
  execCount : Nat
deriving DecidableEq, Repr

instance {ε α : Type} [DecidableEq ε] [DecidableEq α] : DecidableEq (Except ε α) := fun a b =>
  match a, b with
  | .error e, .error f =>
      if h : e = f then .isTrue (by rw [h])
      else .isFalse (by intro hh; injection hh with h2; exact h h2)
  | .error _, .ok _ => .isFalse (by intro hh; exact Except.noConfusion hh)
  | .ok _, .error _ => .isFalse (by intro hh; exact Except.noConfusion hh)
  | .ok x, .ok y =>
      if h : x = y then .isTrue (by rw [h])
      else .isFalse (by intro hh; injection hh with h2; exact h h2)

/-- Result of running one wrapper method: the value or the propagated error,
the state of `self` afterwards (Python keeps mutations made before a raise),
and the driver calls made, in order. -/
structure Outcome (α : Type) where
  res : Except WrapperError α
  st : St
  events : List DriverEvent
deriving DecidableEq, Repr

/-- The Python truthiness test `self.connection and self.connection.is_connected()`:
a handle is present and the driver reports it live (not closed). -/
def connOk (s : St) : Bool :=
  match s.connection with
  | some h => !h.closed
  | none => false

/-- `close(self)`: if the connection is present and live, call the driver's
`close()` on it.  `self.connection` is not reset to `None`; it keeps the (now
closed) handle, exactly as in the source. -/
def close (s : St) : St × List DriverEvent :=
  if connOk s then
    match s.connection with
    | some h => ({ s with connection := some { h with closed := true } }, [.closeCall])
    | none => (s, [])
  else (s, [])

/-- `connect(self)`: if a live connection exists, reuse it (no driver call, no
state change); otherwise call the driver's `connect` with the stored
credentials.  On success the new handle replaces `self.connection` and
`self.last_active_time = time.time()`; on failure the driver error is re-raised
and `self.connection` is left as it was (the assignment never happened). -/
def connect (d : Driver) (now : Time) (s : St) : Outcome Unit :=
  if connOk s then
    ⟨.ok (), s, []⟩
  else
    let n := s.connectCount
    let ev := DriverEvent.connectCall s.host s.user s.password s.database (d.connectOk n)
    if d.connectOk n then
      ⟨.ok (), { s with connection := some ⟨n, false⟩,
                        last_active_time := now,
                        connectCount := n + 1 }, [ev]⟩
    else
      ⟨.error (.connectionError (d.connectErrMsg n)), { s with connectCount := n + 1 }, [ev]⟩

/-- `_handle_idle_connection(self)`: if a live connection has been idle longer
than `idle_timeout` (`time.time() - last_active_time > idle_timeout`), close it. -/
def handle_idle_connection (now : Time) (s : St) : St × List DriverEvent :=
  if connOk s then
    if now - s.last_active_time > s.idle_timeout then close s
    else (s, [])
  else (s, [])

/-- `is_connected(self)`: run the idle check (which may close the handle), then
report whether a handle is present and the driver reports it live. -/
def is_connected (now : Time) (s : St) : Bool × St × List DriverEvent :=
  let p := handle_idle_connection now s
  (connOk p.1, p.1, p.2)

/-- `_reconnect_if_needed(self)`: if `is_connected()` is false (possibly
because the idle check just evicted the handle), call `connect()`. -/
def reconnect_if_needed (d : Driver) (now : Time) (s : St) : Outcome Unit :=
  let p := is_connected now s
  if p.1 then ⟨.ok (), p.2.1, p.2.2⟩
  else
    let o := connect d now p.2.1
    ⟨o.res, o.st, p.2.2 ++ o.events⟩

/-- `_execute_query(self, query, params)`: the choke point.  First
`_reconnect_if_needed()` (a connect failure propagates from outside the `try`,
so no rollback happens on that path); then `cursor.execute(query, params)`.
On success `self.last_active_time = time.time()` and the cursor is returned;
on a driver error `self.connection.rollback()` is called and the error
re-raised, with `last_active_time` left untouched. -/
def execute_query (d : Driver) (now : Time) (s : St) (query : String) (ps : Params) :
    Outcome Cursor :=
  let o := reconnect_if_needed d now s
  match o.res with
  | .error e => ⟨.error e, o.st, o.events⟩
  | .ok _ =>
    let s1 := o.st
    let k := s1.execCount
    let ev := DriverEvent.executeCall query ps (d.execOk k)
    if d.execOk k then
      ⟨.ok (d.cursorOf k),
       { s1 with last_active_time := now, execCount := k + 1 },
       o.events ++ [ev]⟩
    else
      ⟨.error (.queryError (d.execErrMsg k)),
       { s1 with execCount := k + 1 },
       o.events ++ [ev, .rollbackCall]⟩

/-- `__init__(self, host, user, password, database, idle_timeout=300)`: store
the credentials, `connection = None`, `last_active_time = time.time()`, then
eagerly `self.connect()`; a connect failure propagates out of the constructor. -/
def initWrapper (d : Driver) (now : Time) (host user password database : String)
    (idle_timeout : Int) : Outcome Unit :=
  connect d now
    { host := host, user := user, password := password, database := database,
      connection := none, last_active_time := now, idle_timeout := idle_timeout,
      connectCount := 0, execCount := 0 }

/-- A Python record (`dict`): an insertion-ordered association list, so
`keys()` is `map Prod.fst` and `values()` is `map Prod.snd`. -/
abbrev Record := List (String × Value)

/-- `insert_one(self, table, data)`: build
`INSERT INTO {table} ({columns}) VALUES ({placeholders})` with one `%s` per
field, execute it through the choke point with `tuple(data.values())`, commit,
and return `cursor.lastrowid`; any driver error is re-raised. -/
def insert_one (d : Driver) (now : Time) (s : St) (table : String) (data : Record) :
    Outcome (Option Nat) :=
  let columns := String.intercalate ", " (data.map Prod.fst)
  let placeholders := String.intercalate ", " (data.map fun _ => "%s")
  let query := "INSERT INTO " ++ table ++ " (" ++ columns ++ ") VALUES (" ++ placeholders ++ ")"
  let o := execute_query d now s query (.tuple (data.map Prod.snd))
  match o.res with
  | .error e => ⟨.error e, o.st, o.events⟩
  | .ok cur => ⟨.ok cur.lastrowid, o.st, o.events ++ [.commitCall]⟩

/-- `insert_many(self, table, data_list)`: raise `ValueError` immediately if
the list is empty (before any driver interaction); otherwise build the
statement from the first record's keys and pass the list of value tuples to
the choke point, commit, and return `cursor.lastrowid`. -/
def insert_many (d : Driver) (now : Time) (s : St) (table : String)
    (data_list : List Record) : Outcome (Option Nat) :=
  match data_list with
  | [] => ⟨.error (.valueError "The data_list is empty."), s, []⟩
  | first :: _ =>
    let columns := String.intercalate ", " (first.map Prod.fst)
    let placeholders := String.intercalate ", " (first.map fun _ => "%s")
    let query := "INSERT INTO " ++ table ++ " (" ++ columns ++ ") VALUES (" ++ placeholders ++ ")"
    let values := data_list.map fun rec => rec.map Prod.snd
    let o := execute_query d now s query (.seqOfTuples values)
    match o.res with
    | .error e => ⟨.error e, o.st, o.events⟩
    | .ok cur => ⟨.ok cur.lastrowid, o.st, o.events ++ [.commitCall]⟩

/-- The `columns` argument of `get`: Python accepts a plain string (default
`"*"`) or a list of column names. -/
inductive Columns where
  | str (s : String)
  | list (cs : List String)
deriving DecidableEq, Repr

/-- The Python truthiness test `if where_clause:` on an optional string. -/
def whereTruthy : Option String → Bool
  | none => false
  | some w => w ≠ ""

/-- `get(self, table, columns="*", where_clause=None)`: build the SELECT
(appending ` WHERE {where_clause}` only when the clause is truthy), execute it
through the choke point, and return `cursor.fetchall()`; on a driver error the
method swallows it and returns `None` (modelled as `.ok none`). -/
def get (d : Driver) (now : Time) (s : St) (table : String) (columns : Columns)
    (where_clause : Option String) : Outcome (Option (List Row)) :=
  let colStr := match columns with
    | .str c => c
    | .list cs => String.intercalate ", " cs
  let base := "SELECT " ++ colStr ++ " FROM " ++ table
  let query := match where_clause with
    | some w => if whereTruthy (some w) then base ++ " WHERE " ++ w else base
    | none => base
  let o := execute_query d now s query (.noParams)
  match o.res with
  | .error _ => ⟨.ok none, o.st, o.events⟩
  | .ok cur => ⟨.ok (some cur.rows), o.st, o.events⟩

/-- Recognises a driver `connect` attempt in the event trace. -/
def isConnectCall : DriverEvent → Bool
  | .connectCall _ _ _ _ _ => true
  | _ => false

/-- Recognises a `cursor.execute` call in the event trace. -/
def isExecuteCall : DriverEvent → Bool
  | .executeCall _ _ _ => true
  | _ => false

/-- Recognises a `rollback()` call in the event trace. -/
def isRollbackCall : DriverEvent → Bool
  | .rollbackCall => true
  | _ => false

/-- Recognises a driver `close()` call in the event trace. -/
def isCloseCall : DriverEvent → Bool
  | .closeCall => true
  | _ => false

/-- Number of events in a trace satisfying a predicate. -/
def countEvents (f : DriverEvent → Bool) (evs : List DriverEvent) : Nat :=
  (evs.filter f).length

/-- Run a sequence of choke-point operations, each given as (instant, query,
params), threading the wrapper state and concatenating the driver-call traces. -/
def runOps (d : Driver) : St → List (Time × String × Params) → St × List DriverEvent
  | s, [] => (s, [])
  | s, (t, q, ps) :: rest =>
    let o := execute_query d t s q ps
    let r := runOps d o.st rest
    (r.1, o.events ++ r.2)

/-- Each operation in the list starts within `timeout` of the previous
operation's instant (`prev` is the instant of the last activity so far). -/
def withinTimeout (timeout : Int) : Time → List (Time × String × Params) → Bool
  | _, [] => true
  | prev, (t, _, _) :: rest => decide (t - prev ≤ timeout) && withinTimeout timeout t rest

/-- The instant of the last operation in the list (or `prev` if it is empty). -/
def lastTime : Time → List (Time × String × Params) → Time
  | prev, [] => prev
  | _, (t, _, _) :: rest => lastTime t rest

/-- A scripted driver on which every connect and every execute succeeds and
every cursor reports `rowcount = 1`, `lastrowid = 7` and no rows. -/
def dEx : Driver :=
  ⟨fun _ => true, fun _ => true, fun _ => ⟨1, some 7, []⟩,
   fun _ => "connect refused", fun _ => "bad statement"⟩

/-- A scripted driver on which every `cursor.execute` fails. -/
def dFail : Driver := { dEx with execOk := fun _ => false }

/-- A scripted driver on which every driver `connect` attempt fails. -/
def dNoConn : Driver := { dEx with connectOk := fun _ => false }

/-- A wrapper state holding a live handle, last active at instant 100 with a
300-second idle timeout. -/
def sLive : St :=
  { host := "h", user := "u", password := "p", database := "db",
    connection := some ⟨0, false⟩, last_active_time := 100, idle_timeout := 300,
    connectCount := 1, execCount := 0 }

/-- A wrapper state holding a live handle with `idle_timeout = 0`, last active
at instant 0. -/
def sZero : St :=
  { host := "h", user := "u", password := "p", database := "db",
    connection := some ⟨0, false⟩, last_active_time := 0, idle_timeout := 0,
    connectCount := 1, execCount := 0 }

/-- A wrapper state holding a live handle with a negative `idle_timeout`. -/
def sNeg : St := { sZero with idle_timeout := -5 }

/-- `connOk s = true` means a handle is present and not closed. -/
theorem connOk_elim {s : St} (h : connOk s = true) :
    ∃ hd, s.connection = some hd ∧ hd.closed = false := by
  unfold connOk at h
  cases hc : s.connection with
  | none => rw [hc] at h; cases h
  | some hd => rw [hc] at h; exact ⟨hd, rfl, by simpa using h⟩

/-- Event counting distributes over trace concatenation. -/
theorem countEvents_append (f : DriverEvent → Bool) (a b : List DriverEvent) :
    countEvents f (a ++ b) = countEvents f a + countEvents f b := by
  simp [countEvents, List.filter_append]

/-- On a live, non-idle connection, `_reconnect_if_needed` does nothing. -/
theorem reconnect_if_needed_fresh (d : Driver) (now : Time) (s : St)
    (hlive : connOk s = true) (hfresh : now - s.last_active_time ≤ s.idle_timeout) :
    reconnect_if_needed d now s = ⟨.ok (), s, []⟩ := by
  unfold reconnect_if_needed is_connected handle_idle_connection
  simp [hlive, not_lt.mpr hfresh]

/-- On a live, non-idle connection, a successful `_execute_query` makes exactly
one driver `execute` call, touches `last_active_time`, and returns the cursor. -/
theorem execute_query_fresh (d : Driver) (now : Time) (s : St) (q : String) (ps : Params)
    (hlive : connOk s = true) (hfresh : now - s.last_active_time ≤ s.idle_timeout)
    (hok : d.execOk s.execCount = true) :
    execute_query d now s q ps =
      ⟨.ok (d.cursorOf s.execCount),
       { s with last_active_time := now, execCount := s.execCount + 1 },
       [.executeCall q ps true]⟩ := by
  unfold execute_query
  rw [reconnect_if_needed_fresh d now s hlive hfresh]
  simp [hok]

/-- On a live, non-idle connection, a failing `_execute_query` rolls back and
re-raises the driver error without touching `last_active_time`. -/
theorem execute_query_fresh_fail (d : Driver) (now : Time) (s : St) (q : String) (ps : Params)
    (hlive : connOk s = true) (hfresh : now - s.last_active_time ≤ s.idle_timeout)
    (hfail : d.execOk s.execCount = false) :
    execute_query d now s q ps =
      ⟨.error (.queryError (d.execErrMsg s.execCount)),
       { s with execCount := s.execCount + 1 },
       [.executeCall q ps false, .rollbackCall]⟩ := by
  unfold execute_query
  rw [reconnect_if_needed_fresh d now s hlive hfresh]
  simp [hfail]

/-- On a live connection idle past the timeout, `_reconnect_if_needed` closes
the stale handle, then makes exactly one (successful) driver connect call and
installs the fresh handle. -/
theorem reconnect_if_needed_evict (d : Driver) (now : Time) (s : St)
    (hlive : connOk s = true) (hidle : now - s.last_active_time > s.idle_timeout)
    (hconn : d.connectOk s.connectCount = true) :
    reconnect_if_needed d now s =
      ⟨.ok (),
       { s with connection := some ⟨s.connectCount, false⟩, last_active_time := now,
                connectCount := s.connectCount + 1 },
       [DriverEvent.closeCall,
        DriverEvent.connectCall s.host s.user s.password s.database true]⟩ := by
  obtain ⟨hd, hc, hcl⟩ := connOk_elim hlive
  unfold reconnect_if_needed is_connected handle_idle_connection close connect connOk
  simp [hc, hcl, hidle, hconn]

/-- `_reconnect_if_needed` never calls `rollback` or `cursor.execute`: its
trace is made of close and connect events only. -/
theorem reconnect_if_needed_no_exec_rollback (d : Driver) (now : Time) (s : St) :
    countEvents isRollbackCall (reconnect_if_needed d now s).events = 0 ∧
    countEvents isExecuteCall (reconnect_if_needed d now s).events = 0 := by
  obtain ⟨h1, h2, h3, h4, conn, lat, ito, cc, ec⟩ := s
  cases conn with
  | none =>
    cases hcc : d.connectOk cc <;>
      simp only [reconnect_if_needed, is_connected, handle_idle_connection, close, connect,
                 connOk, hcc] <;>
      split_ifs <;>
      simp [countEvents, isRollbackCall, isExecuteCall]
  | some hd =>
    cases hd with
    | mk i cl =>
      cases cl <;> cases hcc : d.connectOk cc <;>
        simp only [reconnect_if_needed, is_connected, handle_idle_connection, close, connect,
                   connOk, hcc] <;>
        split_ifs <;>
        simp [countEvents, isRollbackCall, isExecuteCall]

/-- Characterisation of a run of successful choke-point operations each within
the idle timeout of the previous activity: the state keeps the same handle and
connect counter, the clock advances to the last operation's instant, and the
trace is exactly one successful execute event per operation. -/
theorem runOps_within (d : Driver) (hexec : ∀ n, d.execOk n = true) :
    ∀ (ops : List (Time × String × Params)) (s : St),
      connOk s = true →
      withinTimeout s.idle_timeout s.last_active_time ops = true →
      runOps d s ops =
        ({ s with last_active_time := lastTime s.last_active_time ops,
                  execCount := s.execCount + ops.length },
         ops.map fun op => DriverEvent.executeCall op.2.1 op.2.2 true) := by
  intro ops
  induction ops with
  | nil =>
    intro s _ _
    simp [runOps, lastTime]
  | cons op rest ih =>
    intro s hlive hsep
    obtain ⟨t, q, ps⟩ := op
    unfold withinTimeout at hsep
    rw [Bool.and_eq_true, decide_eq_true_eq] at hsep
    obtain ⟨h1, h2⟩ := hsep
    have step := execute_query_fresh d t s q ps hlive h1 (hexec _)
    have tail := ih { s with last_active_time := t, execCount := s.execCount + 1 }
      hlive h2
    simp only [runOps, step, tail, lastTime]
    refine Prod.ext ?_ ?_
    · simp [St.mk.injEq]
      omega
    · simp

/-- C4: for every table argument, `insert_many(table, [])` fails with the
`ValueError` (the spec's ValidationError), performs zero driver calls (empty
trace: no connect, execute or commit), and leaves the wrapper state unchanged. -/
theorem C4_insert_many_empty_batch (d : Driver) (now : Time) (s : St) (table : String) :
    insert_many d now s table [] =
      ⟨.error (.valueError "The data_list is empty."), s, []⟩ := rfl

/-- C6: `close()` is idempotent: on a live handle it makes one driver close
call and the state reports disconnected; on an already-closed or
never-connected manager it is a no-op; a second `close()` right after a first
is a no-op, so two calls in a row make at most one driver close call. -/
theorem C6_close_idempotent (s : St) :
    (connOk s = true →
      connOk (close s).1 = false ∧ (close s).2 = [DriverEvent.closeCall]) ∧
    (connOk s = false → close s = (s, [])) ∧
    close (close s).1 = ((close s).1, []) ∧
    countEvents isCloseCall ((close s).2 ++ (close (close s).1).2) ≤ 1 := by
  obtain ⟨h1, h2, h3, h4, conn, lat, ito, cc, ec⟩ := s
  cases conn with
  | none => simp [close, connOk, countEvents, isCloseCall]
  | some hd =>
    cases hd with
    | mk i cl => cases cl <;> simp [close, connOk, countEvents, isCloseCall]

/-- C6 witness: closing the live fixture state makes one driver close call and
the state reports disconnected. -/
theorem C6_close_idempotent_witness :
    connOk sLive = true ∧ connOk (close sLive).1 = false ∧
    (close sLive).2 = [DriverEvent.closeCall] := by
  have h := (C6_close_idempotent sLive).1 (by decide)
  exact ⟨by decide, h.1, h.2⟩

/-- C10: `connect()` while the handle is present and reported live is a no-op
(no driver call, same handle, `last_active_time` unchanged), and a second
`connect()` right after equals a single one. -/
theorem C10_connect_noop_when_live (d : Driver) (now now2 : Time) (s : St)
    (hlive : connOk s = true) :
    connect d now s = ⟨.ok (), s, []⟩ ∧
    connect d now2 (connect d now s).st = ⟨.ok (), s, []⟩ := by
  have h1 : connect d now s = ⟨.ok (), s, []⟩ := by
    unfold connect; simp [hlive]
  refine ⟨h1, ?_⟩
  rw [h1]
  unfold connect; simp [hlive]

/-- C10 witness: on the live fixture state, `connect()` twice is the identity
with an empty driver trace. -/
theorem C10_connect_noop_when_live_witness :
    connect dEx 200 sLive = ⟨.ok (), sLive, []⟩ ∧
    connect dEx 300 (connect dEx 200 sLive).st = ⟨.ok (), sLive, []⟩ :=
  C10_connect_noop_when_live dEx 200 300 sLive (by decide)

/-- C5 counterexample: with `idle_timeout = 0` the claim "idle eviction is
disabled" is false: at instant 1 (idle time 1 > 0) the public operation
`is_connected` closes the handle on account of idle time. -/
theorem C5_counterexample_zero_timeout_evicts :
    (is_connected 1 sZero).2.2 = [DriverEvent.closeCall] ∧
    (is_connected 1 sZero).2.1.connection = some ⟨0, true⟩ ∧
    (is_connected 1 sZero).1 = false := by decide

/-- C5 (amended): a zero or negative `idle_timeout` does not disable idle
eviction; the same strict check applies, so whenever the elapsed idle time
exceeds the (non-positive) timeout the handle is closed by the idle check. -/
theorem C5_amended_nonpositive_timeout_still_evicts (now : Time) (s : St)
    (_hto : s.idle_timeout ≤ 0) (hlive : connOk s = true)
    (hidle : now - s.last_active_time > s.idle_timeout) :
    (handle_idle_connection now s).2 = [DriverEvent.closeCall] ∧
    connOk (handle_idle_connection now s).1 = false := by
  obtain ⟨hd, hc, hcl⟩ := connOk_elim hlive
  unfold handle_idle_connection close connOk
  simp [hc, hcl, hidle]

/-- C5 witness: a live handle with `idle_timeout = -5` is evicted at the very
instant of its last activity (idle time 0 > -5). -/
theorem C5_amended_witness :
    sNeg.idle_timeout ≤ 0 ∧
    (handle_idle_connection 0 sNeg).2 = [DriverEvent.closeCall] ∧
    connOk (handle_idle_connection 0 sNeg).1 = false := by
  have h := C5_amended_nonpositive_timeout_still_evicts 0 sNeg (by decide) (by decide) (by decide)
  exact ⟨by decide, h.1, h.2⟩

/-- C7: construction eagerly makes exactly one driver connect call with the
stored credentials; if it fails, the driver error (ConnectionError) propagates,
the state stays disconnected (`connection = None`), no retry happens inside
the call, and the next choke-point operation re-attempts the connect. -/
theorem C7_eager_connect_no_retry (d : Driver) (now now2 : Time)
    (host user password database : String) (ito : Int) (q : String) (ps : Params) :
    (initWrapper d now host user password database ito).events =
      [DriverEvent.connectCall host user password database (d.connectOk 0)] ∧
    countEvents isConnectCall (initWrapper d now host user password database ito).events = 1 ∧
    (d.connectOk 0 = false →
      (initWrapper d now host user password database ito).res =
        Except.error (.connectionError (d.connectErrMsg 0)) ∧
      (initWrapper d now host user password database ito).st.connection = none ∧
      (execute_query d now2 (initWrapper d now host user password database ito).st
          q ps).events.head? =
        some (DriverEvent.connectCall host user password database (d.connectOk 1))) := by
  cases hc0 : d.connectOk 0 with
  | true =>
    refine ⟨?_, ?_, ?_⟩
    · simp [initWrapper, connect, connOk, hc0]
    · simp [initWrapper, connect, connOk, hc0, countEvents, isConnectCall]
    · intro hfalse; cases hfalse
  | false =>
    refine ⟨?_, ?_, ?_⟩
    · simp [initWrapper, connect, connOk, hc0]
    · simp [initWrapper, connect, connOk, hc0, countEvents, isConnectCall]
    · intro _
      refine ⟨?_, ?_, ?_⟩
      · simp [initWrapper, connect, connOk, hc0]
      · simp [initWrapper, connect, connOk, hc0]
      · cases hc1 : d.connectOk 1 <;> cases he0 : d.execOk 0 <;>
          simp [initWrapper, execute_query, reconnect_if_needed, is_connected,
                handle_idle_connection, close, connect, connOk, hc0, hc1, he0]

/-- C7 witness: constructing against a driver that refuses to connect yields
one failed connect attempt, the connection error, and no handle. -/
theorem C7_eager_connect_no_retry_witness :
    (initWrapper dNoConn 0 "h" "u" "p" "db" 300).events =
      [DriverEvent.connectCall "h" "u" "p" "db" false] ∧
    (initWrapper dNoConn 0 "h" "u" "p" "db" 300).res =
      Except.error (WrapperError.connectionError "connect refused") ∧
    (initWrapper dNoConn 0 "h" "u" "p" "db" 300).st.connection = none := by
  obtain ⟨h1, _, h3⟩ :=
    C7_eager_connect_no_retry dNoConn 0 5 "h" "u" "p" "db" 300 "q" Params.noParams
  obtain ⟨h4, h5, _⟩ := h3 (by decide)
  exact ⟨h1.trans (by decide), h4.trans (by decide), h5⟩

/-- C1: if the handle has been idle longer than `idle_timeout`, the next
choke-point operation first makes the driver close call on the stale handle,
then exactly one driver connect call, and only then runs the query; the state
afterwards holds the freshly connected handle. -/
theorem C1_idle_expiry_single_reconnect (d : Driver) (now : Time) (s : St)
    (q : String) (ps : Params)
    (hlive : connOk s = true)
    (hidle : now - s.last_active_time > s.idle_timeout)
    (hconn : d.connectOk s.connectCount = true) :
    ∃ rest,
      (execute_query d now s q ps).events =
        DriverEvent.closeCall ::
          DriverEvent.connectCall s.host s.user s.password s.database true :: rest ∧
      countEvents isConnectCall rest = 0 ∧
      countEvents isConnectCall (execute_query d now s q ps).events = 1 ∧
      rest.head? = some (DriverEvent.executeCall q ps (d.execOk s.execCount)) ∧
      (execute_query d now s q ps).st.connection = some ⟨s.connectCount, false⟩ := by
  have hre := reconnect_if_needed_evict d now s hlive hidle hconn
  unfold execute_query
  rw [hre]
  cases he : d.execOk s.execCount with
  | true =>
    refine ⟨[DriverEvent.executeCall q ps true], ?_, ?_, ?_, ?_, ?_⟩ <;>
      simp [he, countEvents, isConnectCall]
  | false =>
    refine ⟨[DriverEvent.executeCall q ps false, DriverEvent.rollbackCall],
      ?_, ?_, ?_, ?_, ?_⟩ <;>
      simp [he, countEvents, isConnectCall]

/-- C1 witness: at instant 1000 (idle for 900 > 300) the fixture operation
closes the stale handle first and makes exactly one reconnect. -/
theorem C1_idle_expiry_single_reconnect_witness :
    countEvents isConnectCall
      (execute_query dEx 1000 sLive "SELECT 1" Params.noParams).events = 1 ∧
    (execute_query dEx 1000 sLive "SELECT 1" Params.noParams).events.head? =
      some DriverEvent.closeCall ∧
    (execute_query dEx 1000 sLive "SELECT 1" Params.noParams).st.connection =
      some ⟨1, false⟩ := by
  obtain ⟨rest, e1, e2, e3, e4, e5⟩ :=
    C1_idle_expiry_single_reconnect dEx 1000 sLive "SELECT 1" Params.noParams
      (by decide) (by decide) (by decide)
  exact ⟨e3, by rw [e1]; rfl, e5⟩

/-- C2: in a run of successful choke-point operations, each starting within
`idle_timeout` of the previous activity, no driver connect call occurs, the
same handle is kept, and each successful operation touches `last_active_time`
(so it ends at the last operation's instant). -/
theorem C2_sequential_reuse (d : Driver) (s : St) (ops : List (Time × String × Params))
    (hlive : connOk s = true) (hexec : ∀ n, d.execOk n = true)
    (hsep : withinTimeout s.idle_timeout s.last_active_time ops = true) :
    countEvents isConnectCall (runOps d s ops).2 = 0 ∧
    (runOps d s ops).1.connection = s.connection ∧
    (runOps d s ops).1.connectCount = s.connectCount ∧
    (runOps d s ops).1.last_active_time = lastTime s.last_active_time ops ∧
    (runOps d s ops).2 = ops.map fun op => DriverEvent.executeCall op.2.1 op.2.2 true := by
  rw [runOps_within d hexec ops s hlive hsep]
  refine ⟨?_, rfl, rfl, rfl, rfl⟩
  clear hsep
  induction ops with
  | nil => rfl
  | cons op rest ih => simpa [countEvents, isConnectCall] using ih

/-- C2 witness: two operations at instants 200 and 300 against the fixture
state (last active 100, timeout 300) reuse the handle with zero connects. -/
theorem C2_sequential_reuse_witness :
    countEvents isConnectCall
      (runOps dEx sLive
        [(200, "SELECT 1", Params.noParams), (300, "SELECT 2", Params.noParams)]).2 = 0 ∧
    (runOps dEx sLive
        [(200, "SELECT 1", Params.noParams), (300, "SELECT 2", Params.noParams)]).1.connection =
      sLive.connection ∧
    (runOps dEx sLive
        [(200, "SELECT 1", Params.noParams), (300, "SELECT 2", Params.noParams)]).1.last_active_time =
      300 := by
  obtain ⟨w1, w2, _, w4, _⟩ :=
    C2_sequential_reuse dEx sLive
      [(200, "SELECT 1", Params.noParams), (300, "SELECT 2", Params.noParams)]
      (by decide) (fun _ => rfl) (by decide)
  exact ⟨w1, w2, w4.trans (by decide)⟩

/-- C3: whenever the reconnect phase hands a live handle to the execute phase
and the driver reports the query failed, exactly one rollback is made, it
happens right after the failed execute call (before the error reaches the
caller), the query is executed exactly once (no retry), and the `QueryError`
carrying the driver message propagates. -/
theorem C3_failed_execute_rolls_back (d : Driver) (now : Time) (s : St)
    (q : String) (ps : Params)
    (hre : (reconnect_if_needed d now s).res = Except.ok ())
    (hfail : d.execOk (reconnect_if_needed d now s).st.execCount = false) :
    (execute_query d now s q ps).res =
      Except.error
        (WrapperError.queryError (d.execErrMsg (reconnect_if_needed d now s).st.execCount)) ∧
    countEvents isRollbackCall (execute_query d now s q ps).events = 1 ∧
    countEvents isExecuteCall (execute_query d now s q ps).events = 1 ∧
    ∃ pre,
      (execute_query d now s q ps).events =
        pre ++ [DriverEvent.executeCall q ps false, DriverEvent.rollbackCall] ∧
      countEvents isRollbackCall pre = 0 := by
  obtain ⟨hnr, hne⟩ := reconnect_if_needed_no_exec_rollback d now s
  unfold execute_query
  rcases hO : reconnect_if_needed d now s with ⟨res, st, evs⟩
  rw [hO] at hre hfail hnr hne
  simp only at hre hfail hnr hne
  subst hre
  refine ⟨?_, ?_, ?_, ⟨evs, ?_, ?_⟩⟩ <;>
    simp [hfail, countEvents_append, hnr, hne]
  all_goals simp [countEvents, isRollbackCall, isExecuteCall, List.filter]

/-- C3 witness: against a driver that fails every execute, an operation on the
fixture state at instant 200 makes one execute, one rollback, and surfaces the
query error. -/
theorem C3_failed_execute_rolls_back_witness :
    (execute_query dFail 200 sLive "SELECT 1" Params.noParams).res =
      Except.error (WrapperError.queryError "bad statement") ∧
    countEvents isRollbackCall
      (execute_query dFail 200 sLive "SELECT 1" Params.noParams).events = 1 ∧
    countEvents isExecuteCall
      (execute_query dFail 200 sLive "SELECT 1" Params.noParams).events = 1 := by
  obtain ⟨w1, w2, w3, _⟩ :=
    C3_failed_execute_rolls_back dFail 200 sLive "SELECT 1" Params.noParams
      (by decide) (by decide)
  exact ⟨w1.trans (by decide), w2, w3⟩

/-- C8: `insert_one` builds one parameterized INSERT whose `%s` placeholders
match the record's fields in declaration order, binds the record's values in
that order, executes it once through the choke point, commits, and returns the
driver-assigned `lastrowid` (which may be absent). -/
theorem C8_insert_one_parameterized (d : Driver) (now : Time) (s : St)
    (table : String) (data : Record)
    (hlive : connOk s = true) (hfresh : now - s.last_active_time ≤ s.idle_timeout)
    (hok : d.execOk s.execCount = true) :
    insert_one d now s table data =
      ⟨.ok (d.cursorOf s.execCount).lastrowid,
       { s with last_active_time := now, execCount := s.execCount + 1 },
       [DriverEvent.executeCall
          ("INSERT INTO " ++ table ++ " (" ++ String.intercalate ", " (data.map Prod.fst) ++
            ") VALUES (" ++ String.intercalate ", " (data.map fun _ => "%s") ++ ")")
          (Params.tuple (data.map Prod.snd)) true,
        DriverEvent.commitCall]⟩ := by
  simp only [insert_one]
  rw [execute_query_fresh d now s _ _ hlive hfresh hok]
  rfl

/-- C8 witness: `insert_one("users", {name: "Alice", age: 30})` issues one
INSERT with two placeholders bound to ("Alice", 30) in field order, commits,
and returns the generated id 7 the driver assigned. -/
theorem C8_insert_one_parameterized_witness :
    insert_one dEx 200 sLive "users" [("name", Value.str "Alice"), ("age", Value.int 30)] =
      ⟨.ok (some 7),
       { sLive with last_active_time := 200, execCount := 1 },
       [DriverEvent.executeCall "INSERT INTO users (name, age) VALUES (%s, %s)"
          (Params.tuple [Value.str "Alice", Value.int 30]) true,
        DriverEvent.commitCall]⟩ := by
  rw [C8_insert_one_parameterized dEx 200 sLive "users"
        [("name", Value.str "Alice"), ("age", Value.int 30)]
        (by decide) (by decide) (by decide)]
  decide

/-- C9: a `get` whose query succeeds with an empty result set returns the
empty sequence (`Some []`), never the absent value (`None`) that signals a
failed query on this path. -/
theorem C9_get_empty_rows (d : Driver) (now : Time) (s : St) (table : String)
    (cols : Columns) (wc : Option String)
    (hlive : connOk s = true) (hfresh : now - s.last_active_time ≤ s.idle_timeout)
    (hok : d.execOk s.execCount = true)
    (hrows : (d.cursorOf s.execCount).rows = []) :
    (get d now s table cols wc).res = Except.ok (some []) ∧
    (get d now s table cols wc).res ≠ Except.ok none := by
  simp only [get]
  rw [execute_query_fresh d now s _ _ hlive hfresh hok]
  simp [hrows]

/-- C9 witness: `get("t", "*", "id = 5")` with a driver returning no rows
yields the empty sequence, not the absent value. -/
theorem C9_get_empty_rows_witness :
    (get dEx 200 sLive "t" (Columns.str "*") (some "id = 5")).res =
      Except.ok (some []) := by
  obtain ⟨w1, _⟩ :=
    C9_get_empty_rows dEx 200 sLive "t" (Columns.str "*") (some "id = 5")
      (by decide) (by decide) (by decide) (by decide)
  exact w1

end MySQLWrapper
